import Mathlib

/-!
Shallow embedding of the invoice post-processing core of
`src/streamlit_app.py` (functions `calculate_summary`,
`process_one_company`, `process_multiple_companies`).

Modelling conventions:
* Python numbers (JSON ints and floats, including the special values
  `inf`, `-inf`, `nan` that `float(...)` can produce) are modelled as
  exact rationals plus the three special points (`PyNum`).  Binary
  floating-point rounding error of the `+` accumulator is not modelled;
  `round(x, 2)` is modelled as exact decimal round-half-to-even, which is
  what CPython's `round` computes on the decimal value of its argument.
* `float(str(v))` round-trips every Python number `v` exactly
  (`str` prints a shortest round-tripping literal, with no comma), so for
  a numeric field the pipeline `float(str(v).replace(",", ""))` is the
  identity; for a string field it is comma-stripping followed by the
  `float` literal parser; for every other JSON value (`bool`, `null`,
  arrays, objects) `str(v)` is never a valid float literal, so `float`
  raises `ValueError`.  `parseField` below implements exactly this case
  split.
* Dict mutation is modelled by explicit state passing; a `KeyError`
  escaping `calculate_summary` is modelled by an `Option` result
  (`none` = the exception propagates to the caller).
-/

set_option autoImplicit false

/-- Value of a Python number: a finite rational, or one of the three
special float values `inf`, `-inf`, `nan`. -/
inductive PyNum where
  | fin (q : ℚ)
  | inf
  | negInf
  | nan
deriving DecidableEq, Repr

/-- Python float addition, restricted to the cases reachable here
(finite values are added exactly; any `nan` operand gives `nan`;
`inf + (-inf)` gives `nan`). -/
def PyNum.add : PyNum → PyNum → PyNum
  | .nan, _ => .nan
  | _, .nan => .nan
  | .inf, .negInf => .nan
  | .negInf, .inf => .nan
  | .inf, _ => .inf
  | _, .inf => .inf
  | .negInf, _ => .negInf
  | _, .negInf => .negInf
  | .fin a, .fin b => .fin (a + b)

/-- JSON values that can sit in a field of the decoded extraction
output: a number, a string, a boolean, or null.  (Nested arrays and
objects are omitted: like `bool` and `null` they only matter here
through `str(v)` never being float-parseable, so they would behave
exactly like the `null` case in every function below.) -/
inductive PyVal where
  | num (n : PyNum)
  | str (s : String)
  | bool (b : Bool)
  | null
deriving DecidableEq, Repr

/-- Round a rational to the nearest integer, ties to even: the rounding
CPython's `round` applies (on the decimal value of its argument).
`q.num.fdiv q.den` is the floor of `q` (the denominator is positive). -/
def rne (q : ℚ) : ℤ :=
  let f := q.num.fdiv q.den
  let r := q - (f : ℚ)
  if r < mkRat 1 2 then f
  else if mkRat 1 2 < r then f + 1
  else if f % 2 = 0 then f else f + 1

/-- Model of Python `round(x, 2)`: finite values are rounded to 2
decimal places (ties to even); `round` is the identity on `inf`,
`-inf` and `nan`. -/
def pyRound2 : PyNum → PyNum
  | .fin q => .fin (mkRat (rne (q * 100)) 100)
  | x => x

/-- Value of a list of ASCII digits read in base 10. -/
def digitsToNat (l : List Char) : ℕ :=
  l.foldl (fun a c => 10 * a + (c.toNat - 48)) 0

/-- PEP 515 underscore placement: every underscore in a numeric literal
must be surrounded by digits on both sides.  The first argument is the
previous character, if any. -/
def underscoresOkAux : Option Char → List Char → Bool
  | _, [] => true
  | prev, '_' :: rest =>
      (match prev with
        | some p => p.isDigit
        | none => false)
      && (match rest with
        | n :: _ => n.isDigit
        | [] => false)
      && underscoresOkAux (some '_') rest
  | _, c :: rest => underscoresOkAux (some c) rest

/-- Split an optional leading sign off a character list; `true` means
a leading minus sign was present. -/
def takeSign : List Char → Bool × List Char
  | '-' :: rest => (true, rest)
  | '+' :: rest => (false, rest)
  | l => (false, l)

/-- Split a float literal at the first `e`/`E` into mantissa and
(optional) exponent part. -/
def splitExp : List Char → List Char × Option (List Char)
  | [] => ([], none)
  | c :: rest =>
      if c = 'e' ∨ c = 'E' then ([], some rest)
      else
        let p := splitExp rest
        (c :: p.1, p.2)

/-- Case-insensitive match of the special float literals accepted by
Python's `float`: `inf`, `infinity`, `nan` (sign already removed). -/
def parseSpecial (l : List Char) : Option PyNum :=
  match l.map Char.toLower with
  | ['i', 'n', 'f'] => some PyNum.inf
  | ['i', 'n', 'f', 'i', 'n', 'i', 't', 'y'] => some PyNum.inf
  | ['n', 'a', 'n'] => some PyNum.nan
  | _ => none

/-- Parse the mantissa `digits [. digits]` of a float literal (at least
one digit overall) as an exact rational. -/
def parseMantissa (l : List Char) : Option ℚ :=
  let p := l.span Char.isDigit
  match p.2 with
  | [] => if p.1 ≠ [] then some (digitsToNat p.1 : ℚ) else none
  | '.' :: fr =>
      if fr.all Char.isDigit ∧ (p.1 ≠ [] ∨ fr ≠ []) then
        some ((digitsToNat p.1 : ℚ) + mkRat (digitsToNat fr) (10 ^ fr.length))
      else none
  | _ => none

/-- Parse the exponent part of a float literal: optional sign, then a
nonempty digit string. -/
def parseExpPart (l : List Char) : Option ℤ :=
  let p := takeSign l
  if p.2 ≠ [] ∧ p.2.all Char.isDigit then
    some (if p.1 then -(digitsToNat p.2 : ℤ) else (digitsToNat p.2 : ℤ))
  else none

/-- Model of Python's `float(s)` on a character list: strip surrounding
whitespace, take an optional sign, then accept `inf`/`infinity`/`nan`
(case-insensitive) or a decimal literal `digits [. digits] [(e|E)
[sign] digits]` with PEP 515 underscores.  `none` models `ValueError`. -/
def pyFloatChars (l0 : List Char) : Option PyNum :=
  let l1 := ((l0.dropWhile Char.isWhitespace).reverse.dropWhile Char.isWhitespace).reverse
  let sp := takeSign l1
  match parseSpecial sp.2 with
  | some PyNum.inf => some (if sp.1 then PyNum.negInf else PyNum.inf)
  | some x => some x
  | none =>
      if underscoresOkAux none sp.2 then
        let l := sp.2.filter (fun c => c ≠ '_')
        let me := splitExp l
        match parseMantissa me.1 with
        | none => none
        | some m =>
            match me.2 with
            | none => some (PyNum.fin (if sp.1 then -m else m))
            | some el =>
                match parseExpPart el with
                | none => none
                | some k => some (PyNum.fin ((if sp.1 then -m else m) * 10 ^ k))
      else none

/-- Model of `s.replace(",", "")`: delete every comma. -/
def stripCommas (l : List Char) : List Char :=
  l.filter (fun c => c ≠ ',')

/-- Model of `float(str(v).replace(",", ""))` on a JSON field value:
identity on numbers (exact `float(str(x))` round-trip, and `str` of a
number never contains a comma), comma-strip-then-parse on strings, and
`ValueError` (`none`) on every other JSON value, whose `str` rendering
(`True`, `False`, `None`, `[...]`, `{...}`) is never a float literal. -/
def parseField (v : PyVal) : Option PyNum :=
  match v with
  | .num n => some n
  | .str s => pyFloatChars (stripCommas s.toList)
  | .bool _ => none
  | .null => none

/-- One decoded invoice object: the two monetary fields (absent key =
`none`), plus all the other key/value pairs in order. -/
structure Invoice where
  pre_vat : Option PyVal
  wht : Option PyVal
  rest : List (String × PyVal)
deriving DecidableEq, Repr

/-- The decoded `Summary` object: the two total slots (absent key =
`none`), plus any other key/value pairs. -/
structure Summary where
  total_pre_vat : Option PyVal
  total_wht : Option PyVal
  rest : List (String × PyVal)
deriving DecidableEq, Repr

/-- One decoded company object: the `Invoices` key (absent, or a list
of invoice objects), the `Summary` key (absent = `KeyError` on write),
and the header / placeholder key-value pairs. -/
structure Company where
  invoices : Option (List Invoice)
  summary : Option Summary
  rest : List (String × PyVal)
deriving DecidableEq, Repr

/-- One monetary field of one invoice, as processed by the loop body of
`calculate_summary`:
`x = float(str(inv.get(K, "0")).replace(",", ""))` then on success the
field is overwritten with `round(x, 2)` and `x` (unrounded) is added to
the running total; on `ValueError` the field is set to `0.0` and
nothing is added.  Returns (value written back, contribution to the
running total); the failure contribution `0.0` is additively neutral,
so it models skipping the `+=`. -/
def normField (v : Option PyVal) : PyVal × PyNum :=
  match parseField (v.getD (PyVal.str "0")) with
  | some x => (PyVal.num (pyRound2 x), x)
  | none => (PyVal.num (PyNum.fin 0), PyNum.fin 0)

/-- One iteration of the `for inv in data.get("Invoices", [])` loop:
both monetary fields are processed independently (each in its own
`try`).  Returns (updated invoice, pre-VAT contribution, WHT
contribution). -/
def normInvoice (inv : Invoice) : Invoice × PyNum × PyNum :=
  let p := normField inv.pre_vat
  let w := normField inv.wht
  ({ inv with pre_vat := some p.1, wht := some w.1 }, p.2, w.2)

/-- Model of `calculate_summary` (src/streamlit_app.py lines 159-180):
normalize both monetary fields of every invoice in place, accumulate
the unrounded parsed values, then write the rounded totals into
`data["Summary"]`.  `none` models the `KeyError` raised by
`data["Summary"]` when the key is absent (the `Invoices` key itself is
read with `.get` and never inserted). -/
def calculate_summary (data : Company) : Option Company :=
  let processed := (data.invoices.getD []).map normInvoice
  let total_pre_vat := processed.foldl (fun a p => a.add p.2.1) (PyNum.fin 0)
  let total_wht := processed.foldl (fun a p => a.add p.2.2) (PyNum.fin 0)
  match data.summary with
  | none => none
  | some s =>
      some { data with
        invoices := data.invoices.map (fun l => l.map (fun i => (normInvoice i).1)),
        summary := some { s with
          total_pre_vat := some (PyVal.num (pyRound2 total_pre_vat)),
          total_wht := some (PyVal.num (pyRound2 total_wht)) } }

/-- Extraction reply for one company, abstracting the external model
call and `json.loads`: either the decoded company object, or a decode
failure (`json.JSONDecodeError`) carrying the raw text. -/
inductive Reply where
  | parsed (data : Company)
  | malformed (raw : String)
deriving DecidableEq, Repr

/-- Model of `process_one_company` after the external call returned:
on `json.JSONDecodeError` the error is displayed and re-raised
(`none`); otherwise the decoded object is passed to
`calculate_summary` (whose own `KeyError` would also propagate). -/
def process_one_company (r : Reply) : Option Company :=
  match r with
  | .malformed _ => none
  | .parsed data => calculate_summary data

/-- Model of `process_multiple_companies`: process the companies in
order, appending each normalized result; any exception propagates and
the partially built `companies` list is lost (`none`). -/
def process_multiple_companies (replies : List Reply) : Option (List Company) :=
  match replies with
  | [] => some []
  | r :: rest =>
      match process_one_company r with
      | none => none
      | some c => (process_multiple_companies rest).map (fun l => c :: l)

/-- Contribution of one monetary field to its running total, read off
the original (pre-normalization) field value: the parsed value when
parsing succeeds, `0.0` when it fails. -/
def contribOf (v : Option PyVal) : PyNum :=
  match parseField (v.getD (PyVal.str "0")) with
  | some x => x
  | none => PyNum.fin 0

/-- Sum of a list of Python numbers, left fold from `0.0`, as the
accumulation loop performs it. -/
def sumPyNum (l : List PyNum) : PyNum :=
  l.foldl PyNum.add (PyNum.fin 0)

/-- The numeric value an invoice's `Pre_VAT_Amount` field holds (used
to state the spec's claim that the totals are sums of the
post-normalization, already-rounded stored values). -/
def storedPreVat (inv : Invoice) : PyNum :=
  match inv.pre_vat with
  | some (PyVal.num n) => n
  | _ => PyNum.fin 0

/-- The numeric value an invoice's `WHT` field holds. -/
def storedWht (inv : Invoice) : PyNum :=
  match inv.wht with
  | some (PyVal.num n) => n
  | _ => PyNum.fin 0

/-- An invoice with just the two monetary fields. -/
def mkInv (p w : PyVal) : Invoice :=
  { pre_vat := some p, wht := some w, rest := [] }

/-- A `Summary` holding stale upstream totals (99), to show they are
overwritten. -/
def exSummaryA : Summary :=
  { total_pre_vat := some (PyVal.num (PyNum.fin 99)),
    total_wht := some (PyVal.num (PyNum.fin 99)),
    rest := [] }

/-- A `Summary` with both total slots still absent. -/
def exSummaryEmpty : Summary :=
  { total_pre_vat := none, total_wht := none, rest := [] }

/-- Two invoices of 0.004 each: every per-invoice field rounds to 0.00,
but the running total 0.008 rounds to 0.01. -/
def exCompanyA : Company :=
  { invoices := some [mkInv (PyVal.str "0.004") (PyVal.str "0"),
                      mkInv (PyVal.str "0.004") (PyVal.str "0")],
    summary := some exSummaryA,
    rest := [] }

/-- A company whose single invoice carries a comma-separated pre-VAT
amount and a plain numeric WHT string. -/
def exCompanyB : Company :=
  { invoices := some [mkInv (PyVal.str "50,000") (PyVal.str "1,500.5")],
    summary := some exSummaryEmpty,
    rest := [] }

/-- A company whose first invoice has two unparseable monetary fields
(the spec's examples `"N/A"` and `""`), followed by a normal invoice. -/
def exCompanyC : Company :=
  { invoices := some [mkInv (PyVal.str "N/A") (PyVal.str ""),
                      mkInv (PyVal.num (PyNum.fin 60000)) (PyVal.num (PyNum.fin 1800))],
    summary := some exSummaryEmpty,
    rest := [] }

/-- A company whose single invoice has a negative pre-VAT amount and an
`"inf"` WHT string: both parse successfully in Python. -/
def exCompanyD : Company :=
  { invoices := some [mkInv (PyVal.num (PyNum.fin (-1))) (PyVal.str "inf")],
    summary := some exSummaryEmpty,
    rest := [] }

/-- The `Summary` of `exCompanyE`: a stale null slot, an absent slot,
and an extra key. -/
def exSummaryE : Summary :=
  { total_pre_vat := some PyVal.null,
    total_wht := none,
    rest := [("Note", PyVal.bool true)] }

/-- A company with header fields, an extra invoice key and an extra
summary key, for the frame-condition witness. -/
def exCompanyE : Company :=
  { invoices := some [{ pre_vat := some (PyVal.str "2,5"),
                        wht := none,
                        rest := [("Invoice_No", PyVal.str "INV-Temp"),
                                 ("Date", PyVal.str "01/07/2025")] }],
    summary := some exSummaryE,
    rest := [("Receiver", PyVal.str "ABC Company"), ("Branch_No", PyVal.str "00000")] }

/-- The normalized form of `exCompanyE` (its `"2,5"` pre-VAT string
parses to 25.0; the absent WHT key defaults to `"0"`). -/
def exCompanyE1 : Company :=
  { invoices := some [{ pre_vat := some (PyVal.num (PyNum.fin 25)),
                        wht := some (PyVal.num (PyNum.fin 0)),
                        rest := [("Invoice_No", PyVal.str "INV-Temp"),
                                 ("Date", PyVal.str "01/07/2025")] }],
    summary := some { total_pre_vat := some (PyVal.num (PyNum.fin 25)),
                      total_wht := some (PyVal.num (PyNum.fin 0)),
                      rest := [("Note", PyVal.bool true)] },
    rest := [("Receiver", PyVal.str "ABC Company"), ("Branch_No", PyVal.str "00000")] }

/-- A company with an empty invoice list. -/
def exCompanyEmptyInv : Company :=
  { invoices := some [], summary := some exSummaryEmpty, rest := [] }

/-- A company object lacking the `Summary` key entirely. -/
def exCompanyNoSummary : Company :=
  { invoices := none, summary := none, rest := [] }

/-- A reply list whose second company's reply is not valid JSON. -/
def exReplies : List Reply :=
  [Reply.parsed exCompanyB, Reply.malformed "this is not JSON"]

/-- Spec-side check (for the claim that the totals are recomputed from
the already-rounded stored values): does the summary of a normalized
company equal the rounded sums of the stored per-invoice values? -/
def roundedStoredTotalsOk (c : Company) : Bool :=
  match c.summary with
  | none => false
  | some s =>
      decide (s.total_pre_vat
          = some (PyVal.num (pyRound2 (sumPyNum ((c.invoices.getD []).map storedPreVat)))))
        && decide (s.total_wht
          = some (PyVal.num (pyRound2 (sumPyNum ((c.invoices.getD []).map storedWht)))))

/-- The spec's claimed per-field invariant as a Boolean predicate on a
stored numeric value: a finite, non-negative number equal to its own
2-decimal rounding. -/
def finiteNonNegRounded : PyNum → Bool
  | PyNum.fin q => decide (0 ≤ q) && decide (pyRound2 (PyNum.fin q) = PyNum.fin q)
  | _ => false

unseal Rat.mul Rat.add Rat.sub Rat.inv Rat.ofScientific

theorem rne_intCast (k : ℤ) : rne (k : ℚ) = k := by
  unfold rne
  rw [Rat.num_intCast, Rat.den_intCast]
  norm_num [Int.fdiv_one]

theorem pyRound2_idem (n : PyNum) : pyRound2 (pyRound2 n) = pyRound2 n := by
  cases n with
  | fin q =>
      have h : (mkRat (rne (q * 100)) 100 * 100 : ℚ) = ((rne (q * 100) : ℤ) : ℚ) := by
        rw [Rat.mkRat_eq_div]
        norm_num
      simp only [pyRound2, h, rne_intCast]
  | inf => rfl
  | negInf => rfl
  | nan => rfl

theorem pyRound2_zero : pyRound2 (PyNum.fin 0) = PyNum.fin 0 := by decide

theorem normField_snd (v : Option PyVal) : (normField v).2 = contribOf v := by
  unfold normField contribOf
  cases hp : parseField (v.getD (PyVal.str "0")) <;> simp [hp]

theorem normField_stable (v : Option PyVal) :
    normField (some (normField v).1) = ((normField v).1, pyRound2 (contribOf v)) := by
  unfold normField contribOf
  cases hp : parseField (v.getD (PyVal.str "0")) with
  | none => simp [hp, parseField, pyRound2_zero]
  | some x => simp [hp, parseField, pyRound2_idem]

theorem normField_fst_rounded (v : Option PyVal) :
    ∃ n, (normField v).1 = PyVal.num n ∧ pyRound2 n = n := by
  unfold normField
  cases hp : parseField (v.getD (PyVal.str "0")) with
  | none =>
      refine ⟨PyNum.fin 0, ?_, pyRound2_zero⟩
      simp [hp]
  | some x =>
      refine ⟨pyRound2 x, ?_, pyRound2_idem x⟩
      simp [hp]

theorem normInvoice_contrib_pre (i : Invoice) :
    (normInvoice i).2.1 = contribOf i.pre_vat :=
  normField_snd i.pre_vat

theorem normInvoice_contrib_wht (i : Invoice) :
    (normInvoice i).2.2 = contribOf i.wht :=
  normField_snd i.wht

theorem normInvoice_fst_stable (i : Invoice) :
    (normInvoice (normInvoice i).1).1 = (normInvoice i).1 := by
  have hp := normField_stable i.pre_vat
  have hw := normField_stable i.wht
  simp [normInvoice, hp, hw]

theorem map_norm_idem (l : List Invoice) :
    (l.map (fun i => (normInvoice i).1)).map (fun i => (normInvoice i).1)
      = l.map (fun i => (normInvoice i).1) := by
  induction l with
  | nil => rfl
  | cons a t ih => simp [normInvoice_fst_stable, ih]

theorem norm_comp_idem :
    ((fun i => (normInvoice i).1) ∘ fun i => (normInvoice i).1)
      = fun i => (normInvoice i).1 := by
  funext i
  exact normInvoice_fst_stable i

theorem oinv_idem (o : Option (List Invoice)) :
    (o.map (fun l => l.map (fun i => (normInvoice i).1))).map
        (fun l => l.map (fun i => (normInvoice i).1))
      = o.map (fun l => l.map (fun i => (normInvoice i).1)) := by
  cases o <;> simp [map_norm_idem, normInvoice_fst_stable]

theorem calculate_summary_none (c : Company) (h : c.summary = none) :
    calculate_summary c = none := by
  simp [calculate_summary, h]

theorem calculate_summary_eq (c : Company) (s : Summary) (h : c.summary = some s) :
    calculate_summary c
      = some { c with
          invoices := c.invoices.map (fun l => l.map (fun i => (normInvoice i).1)),
          summary := some { s with
            total_pre_vat := some (PyVal.num (pyRound2
              (((c.invoices.getD []).map normInvoice).foldl
                (fun a p => a.add p.2.1) (PyNum.fin 0)))),
            total_wht := some (PyVal.num (pyRound2
              (((c.invoices.getD []).map normInvoice).foldl
                (fun a p => a.add p.2.2) (PyNum.fin 0)))) } } := by
  simp only [calculate_summary, h]

theorem foldl_contrib_pre (invs : List Invoice) :
    (invs.map normInvoice).foldl (fun a p => a.add p.2.1) (PyNum.fin 0)
      = sumPyNum (invs.map (fun i => contribOf i.pre_vat)) := by
  simp [sumPyNum, List.foldl_map, normInvoice_contrib_pre]

theorem foldl_contrib_wht (invs : List Invoice) :
    (invs.map normInvoice).foldl (fun a p => a.add p.2.2) (PyNum.fin 0)
      = sumPyNum (invs.map (fun i => contribOf i.wht)) := by
  simp [sumPyNum, List.foldl_map, normInvoice_contrib_wht]

/-- C6: for every input mapping consistent with the contract (an
`Invoices` sequence of invoice mappings, absent or present, and a
`Summary` mapping), `calculate_summary` completes without any exception
escaping, under every possible value of the monetary fields. -/
theorem C6_no_exception (c : Company) (s : Summary) (h : c.summary = some s) :
    ∃ c1, calculate_summary c = some c1 :=
  ⟨_, calculate_summary_eq c s h⟩

/-- Witness for C6 at a concrete company. -/
theorem C6_no_exception_witness :
    exCompanyE.summary = some exSummaryE ∧
      ∃ c1, calculate_summary exCompanyE = some c1 :=
  ⟨rfl, C6_no_exception exCompanyE exSummaryE rfl⟩

/-- C7: when the `Invoices` key is absent or bound to an empty
sequence, `calculate_summary` completes normally and sets both
`Summary.Total_Pre_VAT_Amount` and `Summary.Total_WHT` to 0.00. -/
theorem C7_empty_or_absent_invoices (c : Company) (s : Summary)
    (hs : c.summary = some s) (hi : c.invoices = none ∨ c.invoices = some []) :
    ∃ c1 s1, calculate_summary c = some c1 ∧ c1.summary = some s1 ∧
      s1.total_pre_vat = some (PyVal.num (PyNum.fin 0)) ∧
      s1.total_wht = some (PyVal.num (PyNum.fin 0)) := by
  refine ⟨_, _, calculate_summary_eq c s hs, rfl, ?_, ?_⟩ <;>
    rcases hi with hi | hi <;> simp [hi, pyRound2_zero]

/-- Witness for C7 at a company with an empty invoice list. -/
theorem C7_empty_or_absent_invoices_witness :
    exCompanyEmptyInv.summary = some exSummaryEmpty ∧
      (exCompanyEmptyInv.invoices = none ∨ exCompanyEmptyInv.invoices = some []) ∧
      ∃ c1 s1, calculate_summary exCompanyEmptyInv = some c1 ∧ c1.summary = some s1 ∧
        s1.total_pre_vat = some (PyVal.num (PyNum.fin 0)) ∧
        s1.total_wht = some (PyVal.num (PyNum.fin 0)) :=
  ⟨rfl, Or.inr rfl,
    C7_empty_or_absent_invoices exCompanyEmptyInv exSummaryEmpty rfl (Or.inr rfl)⟩

/-- C8: a reply that does not parse as JSON makes the whole batch
abort: the decode exception propagates out of `process_one_company`,
and `process_multiple_companies` returns no envelope at all, so
companies processed before the failing one are not preserved; the
per-field 0.00 recovery never applies to this failure. -/
theorem C8_malformed_reply_aborts (replies : List Reply) (raw : String)
    (h : Reply.malformed raw ∈ replies) :
    process_one_company (Reply.malformed raw) = none ∧
      process_multiple_companies replies = none := by
  refine ⟨rfl, ?_⟩
  induction replies with
  | nil => cases h
  | cons r rest ih =>
      rcases List.mem_cons.mp h with h1 | h2
      · subst h1
        simp [process_multiple_companies, process_one_company]
      · cases hp : process_one_company r with
        | none => simp [process_multiple_companies, hp]
        | some cc => simp [process_multiple_companies, hp, ih h2]

/-- Witness for C8: a batch whose second reply is malformed yields no
envelope. -/
theorem C8_malformed_reply_aborts_witness :
    Reply.malformed "this is not JSON" ∈ exReplies ∧
      (process_one_company (Reply.malformed "this is not JSON") = none ∧
        process_multiple_companies exReplies = none) :=
  ⟨by decide, C8_malformed_reply_aborts exReplies "this is not JSON" (by decide)⟩

/-- C10 (implicit): an input mapping lacking the `Summary` key makes
`calculate_summary` raise `KeyError` — even when `Invoices` is absent
or empty — so the no-exception guarantee holds only when a `Summary`
mapping is present. -/
theorem C10_missing_summary (c : Company) (h : c.summary = none) :
    calculate_summary c = none :=
  calculate_summary_none c h

/-- Witness for C10 at a company with neither `Invoices` nor
`Summary`. -/
theorem C10_missing_summary_witness :
    exCompanyNoSummary.summary = none ∧
      calculate_summary exCompanyNoSummary = none :=
  ⟨rfl, C10_missing_summary exCompanyNoSummary rfl⟩

/-- C1 as stated fails on the code: `calculate_summary` accumulates the
*unrounded* parsed values into the totals (line 167 adds `pre_vat`, not
`round(pre_vat, 2)`), so at `exCompanyA` (two invoices of 0.004) the
written total is 0.01 while the rounded sum of the already-rounded
stored per-invoice values is 0.00. -/
theorem C1_counterexample :
    ∃ c1, calculate_summary exCompanyA = some c1 ∧ roundedStoredTotalsOk c1 = false := by
  refine ⟨_, calculate_summary_eq exCompanyA exSummaryA rfl, ?_⟩
  decide

/-- C1 (amended): after `calculate_summary`, `Total_Pre_VAT_Amount` is
the 2-decimal rounding of the sum of the per-invoice `Pre_VAT_Amount`
values as parsed (before their own per-field rounding), with parse
failures contributing 0, and likewise `Total_WHT`; both totals are
recomputed from the invoices alone, overwriting the input Summary. -/
theorem C1_amended_totals (c : Company) (s : Summary) (h : c.summary = some s) :
    ∃ c1 s1, calculate_summary c = some c1 ∧ c1.summary = some s1 ∧
      s1.total_pre_vat = some (PyVal.num (pyRound2 (sumPyNum
        ((c.invoices.getD []).map (fun i => contribOf i.pre_vat))))) ∧
      s1.total_wht = some (PyVal.num (pyRound2 (sumPyNum
        ((c.invoices.getD []).map (fun i => contribOf i.wht))))) := by
  refine ⟨_, _, calculate_summary_eq c s h, rfl, ?_, ?_⟩
  · rw [foldl_contrib_pre]
  · rw [foldl_contrib_wht]

/-- Witness for the amended C1 at `exCompanyA`. -/
theorem C1_amended_totals_witness :
    exCompanyA.summary = some exSummaryA ∧
      ∃ c1 s1, calculate_summary exCompanyA = some c1 ∧ c1.summary = some s1 ∧
        s1.total_pre_vat = some (PyVal.num (pyRound2 (sumPyNum
          ((exCompanyA.invoices.getD []).map (fun i => contribOf i.pre_vat))))) ∧
        s1.total_wht = some (PyVal.num (pyRound2 (sumPyNum
          ((exCompanyA.invoices.getD []).map (fun i => contribOf i.wht))))) :=
  ⟨rfl, C1_amended_totals exCompanyA exSummaryA rfl⟩

/-- C2 as stated fails on the code: applying `calculate_summary` twice
to `exCompanyA` changes the totals (0.01 after one pass, 0.00 after
two), because the first pass sums unrounded parsed values while the
second sums the rounded stored values. -/
theorem C2_counterexample :
    (calculate_summary exCompanyA).bind calculate_summary ≠ calculate_summary exCompanyA := by
  decide

/-- C2 (amended): `calculate_summary` is idempotent from the second
application on: applying it three times yields exactly the same result
as applying it twice (the invoice fields already stabilize after one
pass; the totals stabilize after two). -/
theorem C2_amended_stable_after_two (c : Company) :
    ((calculate_summary c).bind calculate_summary).bind calculate_summary
      = (calculate_summary c).bind calculate_summary := by
  cases hs : c.summary with
  | none => rw [calculate_summary_none c hs]; rfl
  | some s =>
      rw [calculate_summary_eq c s hs, Option.some_bind,
        calculate_summary_eq _ _ rfl, Option.some_bind,
        calculate_summary_eq _ _ rfl]
      simp [norm_comp_idem]

/-- C5 as stated fails on the code: Python's `float` accepts negative
numbers, `"inf"` and `"nan"`, and `calculate_summary` passes them
through (rounded), so a stored field can be negative or non-finite.  At
`exCompanyD` (pre-VAT −1, WHT `"inf"`) the invariant is violated. -/
theorem C5_counterexample :
    (calculate_summary exCompanyD).map (fun c1 =>
        ((c1.invoices.getD []).map storedPreVat).all finiteNonNegRounded
          && ((c1.invoices.getD []).map storedWht).all finiteNonNegRounded)
      = some false := by
  decide

/-- C5 (amended): after `calculate_summary` every invoice's
`Pre_VAT_Amount` and `WHT` field holds a number equal to its own
2-decimal rounding (so every finite value has exactly 2 decimals, and
malformed input is defaulted to 0.00); negative parsed values remain
negative and `"inf"`/`"nan"` yield non-finite values. -/
theorem C5_amended_fields_rounded (c : Company) (s : Summary) (h : c.summary = some s) :
    ∃ c1, calculate_summary c = some c1 ∧
      ∀ i1 ∈ c1.invoices.getD [],
        (∃ n, i1.pre_vat = some (PyVal.num n) ∧ pyRound2 n = n) ∧
        (∃ n, i1.wht = some (PyVal.num n) ∧ pyRound2 n = n) := by
  refine ⟨_, calculate_summary_eq c s h, ?_⟩
  intro i1 hi1
  cases hco : c.invoices with
  | none => rw [hco] at hi1; simp at hi1
  | some l =>
      rw [hco] at hi1
      simp only [Option.map_some, Option.getD_some] at hi1
      rcases List.mem_map.mp hi1 with ⟨i0, hmem, hout⟩
      constructor
      · obtain ⟨n, hn, hr⟩ := normField_fst_rounded i0.pre_vat
        refine ⟨n, ?_, hr⟩
        rw [show i1.pre_vat = some (normField i0.pre_vat).1 from by rw [hout.symm]; rfl, hn]
      · obtain ⟨n, hn, hr⟩ := normField_fst_rounded i0.wht
        refine ⟨n, ?_, hr⟩
        rw [show i1.wht = some (normField i0.wht).1 from by rw [hout.symm]; rfl, hn]

/-- Witness for the amended C5 at `exCompanyD`. -/
theorem C5_amended_fields_rounded_witness :
    exCompanyD.summary = some exSummaryEmpty ∧
      ∃ c1, calculate_summary exCompanyD = some c1 ∧
        ∀ i1 ∈ c1.invoices.getD [],
          (∃ n, i1.pre_vat = some (PyVal.num n) ∧ pyRound2 n = n) ∧
          (∃ n, i1.wht = some (PyVal.num n) ∧ pyRound2 n = n) :=
  ⟨rfl, C5_amended_fields_rounded exCompanyD exSummaryEmpty rfl⟩

/-- C3: a string-valued monetary field is normalized by the textual
pipeline of lines 165 and 172: strip `","` characters, parse the
result as a float, round to 2 decimal places and write the rounded
value back into the same field of the same invoice (with parse failure
giving 0.0); this holds for `Pre_VAT_Amount` and `WHT` alike. -/
theorem C3_string_field_pipeline (c : Company) (s : Summary) (invs : List Invoice)
    (j : ℕ) (tp tw : String)
    (hs : c.summary = some s) (hi : c.invoices = some invs)
    (hp : (invs[j]?).bind Invoice.pre_vat = some (PyVal.str tp))
    (hw : (invs[j]?).bind Invoice.wht = some (PyVal.str tw)) :
    ∃ c1 invs1, calculate_summary c = some c1 ∧ c1.invoices = some invs1 ∧
      (invs1[j]?).bind Invoice.pre_vat
        = some (match pyFloatChars (stripCommas tp.toList) with
            | some x => PyVal.num (pyRound2 x)
            | none => PyVal.num (PyNum.fin 0)) ∧
      (invs1[j]?).bind Invoice.wht
        = some (match pyFloatChars (stripCommas tw.toList) with
            | some x => PyVal.num (pyRound2 x)
            | none => PyVal.num (PyNum.fin 0)) := by
  refine ⟨_, invs.map (fun i => (normInvoice i).1),
    calculate_summary_eq c s hs, by rw [show c.invoices = some invs from hi]; rfl, ?_, ?_⟩
  · rw [List.getElem?_map]
    cases hj : invs[j]? with
    | none => rw [hj] at hp; simp at hp
    | some i0 =>
        rw [hj] at hp
        simp only [Option.some_bind] at hp
        simp only [Option.map_some', Option.some_bind]
        show some (normField i0.pre_vat).1 = _
        rw [hp]
        simp only [normField, Option.getD_some, parseField]
        cases pyFloatChars (stripCommas tp.toList) <;> rfl
  · rw [List.getElem?_map]
    cases hj : invs[j]? with
    | none => rw [hj] at hw; simp at hw
    | some i0 =>
        rw [hj] at hw
        simp only [Option.some_bind] at hw
        simp only [Option.map_some', Option.some_bind]
        show some (normField i0.wht).1 = _
        rw [hw]
        simp only [normField, Option.getD_some, parseField]
        cases pyFloatChars (stripCommas tw.toList) <;> rfl

/-- Witness for C3 at `exCompanyB`: the `"50,000"` pre-VAT string
normalizes to 50000.00 and the `"1,500.5"` WHT string to 1500.50. -/
theorem C3_string_field_pipeline_witness :
    exCompanyB.summary = some exSummaryEmpty ∧
      exCompanyB.invoices = some [mkInv (PyVal.str "50,000") (PyVal.str "1,500.5")] ∧
      ∃ c1 invs1, calculate_summary exCompanyB = some c1 ∧ c1.invoices = some invs1 ∧
        (invs1[0]?).bind Invoice.pre_vat = some (PyVal.num (PyNum.fin 50000)) ∧
        (invs1[0]?).bind Invoice.wht = some (PyVal.num (PyNum.fin (mkRat 3001 2))) := by
  refine ⟨rfl, rfl, ?_⟩
  obtain ⟨c1, invs1, h1, h2, h3, h4⟩ :=
    C3_string_field_pipeline exCompanyB exSummaryEmpty
      [mkInv (PyVal.str "50,000") (PyVal.str "1,500.5")] 0 "50,000" "1,500.5"
      rfl rfl (by decide) (by decide)
  refine ⟨c1, invs1, h1, h2, ?_, ?_⟩
  · rw [h3]; decide
  · rw [h4]; decide

/-- C4: an invoice field whose value cannot be parsed as a number after
comma-stripping (for example `""` or `"N/A"`) is set to 0.00; no
exception is raised, and every invoice of the sequence — including
those after the failing one — is still processed normally. -/
theorem C4_parse_failure_recovery (c : Company) (s : Summary) (invs : List Invoice)
    (j : ℕ) (v w : PyVal)
    (hs : c.summary = some s) (hi : c.invoices = some invs)
    (hv : (invs[j]?).bind Invoice.pre_vat = some v)
    (hw : (invs[j]?).bind Invoice.wht = some w) :
    ∃ c1 invs1, calculate_summary c = some c1 ∧ c1.invoices = some invs1 ∧
      invs1.length = invs.length ∧
      (∀ k : ℕ, invs1[k]? = (invs[k]?).map (fun i => (normInvoice i).1)) ∧
      (parseField v = none →
        (invs1[j]?).bind Invoice.pre_vat = some (PyVal.num (PyNum.fin 0))) ∧
      (parseField w = none →
        (invs1[j]?).bind Invoice.wht = some (PyVal.num (PyNum.fin 0))) := by
  refine ⟨_, invs.map (fun i => (normInvoice i).1),
    calculate_summary_eq c s hs, by rw [show c.invoices = some invs from hi]; rfl,
    List.length_map invs _, fun k => List.getElem?_map _ invs k, ?_, ?_⟩
  · intro hfail
    rw [List.getElem?_map]
    cases hj : invs[j]? with
    | none => rw [hj] at hv; simp at hv
    | some i0 =>
        rw [hj] at hv
        simp only [Option.some_bind] at hv
        simp only [Option.map_some', Option.some_bind]
        show some (normField i0.pre_vat).1 = _
        rw [hv]
        simp only [normField, Option.getD_some]
        rw [hfail]
  · intro hfail
    rw [List.getElem?_map]
    cases hj : invs[j]? with
    | none => rw [hj] at hw; simp at hw
    | some i0 =>
        rw [hj] at hw
        simp only [Option.some_bind] at hw
        simp only [Option.map_some', Option.some_bind]
        show some (normField i0.wht).1 = _
        rw [hw]
        simp only [normField, Option.getD_some]
        rw [hfail]

/-- Witness for C4 at `exCompanyC`: both `"N/A"` and `""` fail to
parse, both fields become 0.00, and the following invoice is still
processed. -/
theorem C4_parse_failure_recovery_witness :
    exCompanyC.summary = some exSummaryEmpty ∧
      parseField (PyVal.str "N/A") = none ∧
      parseField (PyVal.str "") = none ∧
      ∃ c1 invs1, calculate_summary exCompanyC = some c1 ∧ c1.invoices = some invs1 ∧
        invs1.length = 2 ∧
        (invs1[0]?).bind Invoice.pre_vat = some (PyVal.num (PyNum.fin 0)) ∧
        (invs1[0]?).bind Invoice.wht = some (PyVal.num (PyNum.fin 0)) ∧
        (invs1[1]?).bind Invoice.pre_vat = some (PyVal.num (PyNum.fin 60000)) := by
  refine ⟨rfl, by decide, by decide, ?_⟩
  obtain ⟨c1, invs1, h1, h2, h3, h4, h5, h6⟩ :=
    C4_parse_failure_recovery exCompanyC exSummaryEmpty
      [mkInv (PyVal.str "N/A") (PyVal.str ""),
       mkInv (PyVal.num (PyNum.fin 60000)) (PyVal.num (PyNum.fin 1800))]
      0 (PyVal.str "N/A") (PyVal.str "")
      rfl rfl (by decide) (by decide)
  refine ⟨c1, invs1, h1, h2, by rw [h3]; rfl, h5 (by decide), h6 (by decide), ?_⟩
  rw [h4 1]
  decide

/-- C9: `calculate_summary` changes only the two monetary fields of
each invoice and the Summary's two total slots: all other company
key/value pairs, the presence and length (hence order) of the invoice
sequence, each invoice's other key/value pairs, and the Summary's
other key/value pairs are identical before and after. -/
theorem C9_frame_condition (c c1 : Company) (h : calculate_summary c = some c1) :
    c1.rest = c.rest ∧
    c1.invoices.map List.length = c.invoices.map List.length ∧
    (∀ k : ℕ, ((c1.invoices.getD [])[k]?).map Invoice.rest
        = ((c.invoices.getD [])[k]?).map Invoice.rest) ∧
    ∀ s0, c.summary = some s0 → ∃ s1, c1.summary = some s1 ∧ s1.rest = s0.rest := by
  cases hs : c.summary with
  | none => rw [calculate_summary_none c hs] at h; cases h
  | some s =>
      rw [calculate_summary_eq c s hs] at h
      injection h with h1
      subst h1
      refine ⟨rfl, ?_, ?_, ?_⟩
      · cases c.invoices <;> simp
      · intro k
        cases hco : c.invoices with
        | none => simp
        | some l =>
            simp only [Option.map_some', Option.getD_some, List.getElem?_map]
            cases l[k]? <;> rfl
      · intro s0 hs0
        obtain rfl := Option.some.inj hs0
        exact ⟨_, rfl, rfl⟩

/-- Witness for C9: the normalized form of `exCompanyE`, preserving its
header fields, invoice keys and summary keys. -/
theorem C9_frame_condition_witness :
    calculate_summary exCompanyE = some exCompanyE1 ∧
      (exCompanyE1.rest = exCompanyE.rest ∧
        exCompanyE1.invoices.map List.length = exCompanyE.invoices.map List.length ∧
        (∀ k : ℕ, ((exCompanyE1.invoices.getD [])[k]?).map Invoice.rest
            = ((exCompanyE.invoices.getD [])[k]?).map Invoice.rest) ∧
        ∀ s0, exCompanyE.summary = some s0 →
          ∃ s1, exCompanyE1.summary = some s1 ∧ s1.rest = s0.rest) :=
  ⟨by decide, C9_frame_condition exCompanyE exCompanyE1 (by decide)⟩
